import Mathlib

/-!
Shallow embedding of the tank/chlorine simulation engine of the ASADAS
Tsa Diglo repository (src/simulation_api/data_generator.py) together with
the manual-control arbiter and the tank endpoints of src/main.py.

Python floats are modelled as exact rationals, wall-clock timestamps as
rationals (in minutes), and every call to random.uniform / datetime.now /
time.time is modelled as an explicit input parameter of the step function
(the draw structures below); where a claim depends on the range of a draw,
the range appearing in the source is taken as a hypothesis.
-/

/-- The TankType enum of Python (data_generator.py). -/
inductive TankType where
  | tank_a
  | tank_b
deriving DecidableEq, Repr

/-- The TankConfig dataclass of Python (data_generator.py). -/
structure TankConfig where
  tank_id : String
  name : String
  capacity_m3 : ℚ
  max_height_cm : ℚ
  min_height_cm : ℚ
  has_chlorine_sensor : Bool
  normal_consumption_rate : ℚ
deriving DecidableEq, Repr

/-- The TANK_CONFIGS dictionary (data_generator.py lines 41-60). -/
def TANK_CONFIGS : TankType → TankConfig
  | TankType.tank_a =>
    { tank_id := "tank_a", name := "Cisterna", capacity_m3 := 50.0,
      max_height_cm := 180.0, min_height_cm := 20.0,
      has_chlorine_sensor := false, normal_consumption_rate := 2.5 }
  | TankType.tank_b =>
    { tank_id := "tank_b", name := "Tanque 150", capacity_m3 := 150.0,
      max_height_cm := 300.0, min_height_cm := 30.0,
      has_chlorine_sensor := true, normal_consumption_rate := 8.0 }

/-- The mutable per-tank state dictionary for Tank A
(self.tank_states[TankType.TANK_A] in SensorDataGenerator.__init__).
Timestamps are rationals in minutes. -/
structure TankAState where
  current_level_cm : ℚ
  pump_running : Bool
  last_pump_cycle : ℚ
  fill_rate : ℚ
deriving DecidableEq, Repr

/-- The mutable per-tank state dictionary for Tank B
(self.tank_states[TankType.TANK_B] in SensorDataGenerator.__init__).
Note: this dictionary has no pump_running key. -/
structure TankBState where
  current_level_cm : ℚ
  chlorine_ppm : ℚ
  chlorinator_running : Bool
  last_chlorine_dose : ℚ
  consumption_rate : ℚ
deriving DecidableEq, Repr

/-- The whole generator state (self.tank_states). -/
structure SimState where
  tank_a : TankAState
  tank_b : TankBState
deriving DecidableEq, Repr

/-- The initial state built by SensorDataGenerator.__init__: Tank A at
120 cm, Tank B at 200 cm, chlorine 1.2 ppm, equipment off; the last
timestamps are now minus 2 hours resp. 1 hour (in minutes). -/
def initial_tank_states (now : ℚ) : SimState :=
  { tank_a := { current_level_cm := 120.0, pump_running := false,
                last_pump_cycle := now - 120, fill_rate := 0.0 },
    tank_b := { current_level_cm := 200.0, chlorine_ppm := 1.2,
                chlorinator_running := false, last_chlorine_dose := now - 60,
                consumption_rate := 0.0 } }

/-- The consumption_patterns dictionary (hour of day 0-23 to demand
multiplier); the final case models the default 0.5 of dict.get. -/
def consumption_patterns (h : Nat) : ℚ :=
  match h with
  | 0 => 0.1 | 1 => 0.1 | 2 => 0.1 | 3 => 0.1 | 4 => 0.2
  | 5 => 0.5 | 6 => 0.8 | 7 => 1.0 | 8 => 0.9 | 9 => 0.7
  | 10 => 0.6 | 11 => 0.8 | 12 => 1.0 | 13 => 0.9
  | 14 => 0.7 | 15 => 0.6 | 16 => 0.7 | 17 => 0.9
  | 18 => 1.0 | 19 => 0.9 | 20 => 0.8 | 21 => 0.6
  | 22 => 0.4 | 23 => 0.2
  | _ => 0.5

/-- The random draws consumed by one call of _simulate_tank_a_level:
fill_rate_cm_hour is random.uniform(2.0, 5.0) times the seasonal sinusoid
factor, pump_rate_cm_hour is random.uniform(6.0, 8.0), sensor_noise is
random.uniform(-2.0, 2.0). -/
structure DrawsA where
  fill_rate_cm_hour : ℚ
  pump_rate_cm_hour : ℚ
  sensor_noise : ℚ
deriving DecidableEq, Repr

/-- The random draws consumed by one call of _simulate_tank_b_level:
fill_rate_cm_hour is random.uniform(4.0, 6.0), consumption_variation is
random.uniform(0.8, 1.2), sensor_noise is random.uniform(-3.0, 3.0). -/
structure DrawsB where
  fill_rate_cm_hour : ℚ
  consumption_variation : ℚ
  sensor_noise : ℚ
deriving DecidableEq, Repr

/-- The random draws consumed by one call of _simulate_chlorine_level:
decay_rate_ppm_hour is random.uniform(0.05, 0.1), dose_rate_ppm_hour is
random.uniform(0.3, 0.5), sensor_noise is random.uniform(-0.05, 0.05). -/
structure DrawsC where
  decay_rate_ppm_hour : ℚ
  dose_rate_ppm_hour : ℚ
  sensor_noise : ℚ
deriving DecidableEq, Repr

/-- All draws for one full tick over both tanks. -/
structure Draws where
  a : DrawsA
  b : DrawsB
  c : DrawsC
deriving DecidableEq, Repr

/-- _get_consumption_multiplier: pattern lookup for the current hour times
the uniform(0.8, 1.2) variation drawn by the same call. -/
def get_consumption_multiplier (hour : Nat) (variation : ℚ) : ℚ :=
  consumption_patterns hour * variation

/-- _simulate_tank_a_level (data_generator.py lines 120-166). Returns the
new persisted Tank A state and the measured (noisy) level the function
returns. The hysteresis thresholds are evaluated on the level BEFORE the
inflow/outflow update, exactly as in the source; the source mutates
pump_running and last_pump_cycle inside one if/elif, which is rendered
here as two let bindings with the same branch conditions. -/
def simulate_tank_a_level (s : TankAState) (d : DrawsA) (now dm : ℚ) :
    TankAState × ℚ :=
  let config := TANK_CONFIGS TankType.tank_a
  let current_level := s.current_level_cm
  let level_increase := (d.fill_rate_cm_hour / 60) * dm
  -- if pump_should_run and not pump_running: on, stamp; elif pump_should_stop and pump_running: off
  let pump_running : Bool :=
    if config.max_height_cm * 0.85 ≤ current_level ∧ s.pump_running = false then true
    else if current_level ≤ config.max_height_cm * 0.60 ∧ s.pump_running = true then false
    else s.pump_running
  let last_pump_cycle : ℚ :=
    if config.max_height_cm * 0.85 ≤ current_level ∧ s.pump_running = false then now
    else s.last_pump_cycle
  -- if the (updated) pump is running, the level goes down
  let current_level :=
    if pump_running then current_level - (d.pump_rate_cm_hour / 60) * dm
    else current_level
  let current_level := current_level + level_increase
  -- physical limits
  let current_level :=
    max config.min_height_cm (min config.max_height_cm current_level)
  let measured_level := current_level + d.sensor_noise
  ({ s with current_level_cm := current_level,
            pump_running := pump_running,
            last_pump_cycle := last_pump_cycle },
   max 0 measured_level)

/-- The inflow contribution to Tank B of one step: the source adds
(fill_rate_cm_hour / 60) * time_delta inside "if state_a[pump_running]"
and adds nothing otherwise (data_generator.py lines 180-185). -/
def tank_b_inflow (pump_running : Bool) (fill_rate_cm_hour dm : ℚ) : ℚ :=
  if pump_running then (fill_rate_cm_hour / 60) * dm else 0

/-- _simulate_tank_b_level (data_generator.py lines 168-204). Reads Tank
A live state for the coupling; returns the new persisted Tank B state
and the measured (noisy) level. -/
def simulate_tank_b_level (state_a : TankAState) (state_b : TankBState)
    (d : DrawsB) (hour : Nat) (dm : ℚ) : TankBState × ℚ :=
  let config := TANK_CONFIGS TankType.tank_b
  let current_level := state_b.current_level_cm
  -- filling from Tank A while its pump is active
  let current_level :=
    current_level + tank_b_inflow state_a.pump_running d.fill_rate_cm_hour dm
  -- consumption by the quiebragradientes: hardcoded 3.0 cm/hour base rate
  let consumption_multiplier := get_consumption_multiplier hour d.consumption_variation
  let base_consumption_cm_hour : ℚ := 3.0
  let actual_consumption := base_consumption_cm_hour * consumption_multiplier
  let level_decrease := (actual_consumption / 60) * dm
  let current_level := current_level - level_decrease
  -- physical limits
  let current_level :=
    max config.min_height_cm (min config.max_height_cm current_level)
  let measured_level := current_level + d.sensor_noise
  ({ state_b with current_level_cm := current_level }, max 0 measured_level)

/-- _simulate_chlorine_level (data_generator.py lines 206-246). Thresholds
are evaluated on the chlorine AFTER natural decay, as in the source; the
if/elif mutating chlorinator_running and last_chlorine_dose is rendered as
two let bindings with the same branch conditions. -/
def simulate_chlorine_level (state_b : TankBState) (d : DrawsC) (now dm : ℚ) :
    TankBState × ℚ :=
  let current_chlorine :=
    state_b.chlorine_ppm - (d.decay_rate_ppm_hour / 60) * dm
  let chlorinator_running : Bool :=
    if current_chlorine < 0.8 ∧ state_b.chlorinator_running = false then true
    else if 1.5 < current_chlorine ∧ state_b.chlorinator_running = true then false
    else state_b.chlorinator_running
  let last_chlorine_dose : ℚ :=
    if current_chlorine < 0.8 ∧ state_b.chlorinator_running = false then now
    else state_b.last_chlorine_dose
  let current_chlorine :=
    if chlorinator_running then current_chlorine + (d.dose_rate_ppm_hour / 60) * dm
    else current_chlorine
  -- chlorine limits
  let current_chlorine := max 0.0 (min 3.0 current_chlorine)
  let measured_chlorine := current_chlorine + d.sensor_noise
  ({ state_b with chlorine_ppm := current_chlorine,
                  chlorinator_running := chlorinator_running,
                  last_chlorine_dose := last_chlorine_dose },
   max 0.0 measured_chlorine)

/-- _calculate_volume_from_level (data_generator.py lines 104-109). -/
def calculate_volume_from_level (level_cm : ℚ) (tank_type : TankType) : ℚ :=
  let config := TANK_CONFIGS tank_type
  let area_base_m2 := config.capacity_m3 / (config.max_height_cm / 100)
  let level_m := level_cm / 100
  level_m * area_base_m2

/-- The Python round-half-to-even rule on an exact rational. -/
def round_half_even (x : ℚ) : ℤ :=
  let f := Int.floor x
  let frac := x - f
  if frac < 1 / 2 then f
  else if 1 / 2 < frac then f + 1
  else if f % 2 = 0 then f else f + 1

/-- The Python round(x, n) function on an exact rational. -/
def py_round (x : ℚ) (n : ℕ) : ℚ :=
  (round_half_even (x * 10 ^ n) : ℚ) / 10 ^ n

/-- _get_chlorine_status (data_generator.py lines 288-295). -/
def get_chlorine_status (chlorine_ppm : ℚ) : String :=
  if chlorine_ppm < 0.5 then "low"
  else if 2.0 < chlorine_ppm then "high"
  else "normal"

/-- The reading dictionary built by generate_tank_reading; the chlorine
fields are present only for Tank B, matching reading.update there. -/
structure Reading where
  timestamp : ℚ
  tank_id : String
  tank_name : String
  water_level_cm : ℚ
  water_level_percent : ℚ
  water_volume_m3 : ℚ
  pump_status : Bool
  sensor_status : String
  data_source : String
  chlorine_ppm : Option ℚ
  chlorine_status : Option String
  chlorinator_status : Option Bool
deriving DecidableEq, Repr

/-- generate_tank_reading (data_generator.py lines 248-286). For Tank A
the pump_status of the reading reads the state dictionary AFTER the level step
mutated it. For Tank B the source looks up
tank_states[tank_type].get("pump_running", False); the Tank B dictionary
never has a pump_running key, so the lookup takes the default False.
The chlorine status is computed from the unrounded measured chlorine. -/
def generate_tank_reading (st : SimState) (tank_type : TankType) (d : Draws)
    (now : ℚ) (hour : Nat) (dm : ℚ) : SimState × Reading :=
  match tank_type with
  | TankType.tank_a =>
    let config := TANK_CONFIGS TankType.tank_a
    let r := simulate_tank_a_level st.tank_a d.a now dm
    let level_cm := r.2
    let volume_m3 := calculate_volume_from_level level_cm TankType.tank_a
    let level_percent := (level_cm / config.max_height_cm) * 100
    ({ st with tank_a := r.1 },
     { timestamp := now
       tank_id := config.tank_id
       tank_name := config.name
       water_level_cm := py_round level_cm 2
       water_level_percent := py_round level_percent 1
       water_volume_m3 := py_round volume_m3 2
       pump_status := r.1.pump_running
       sensor_status := "active"
       data_source := "simulation"
       chlorine_ppm := none
       chlorine_status := none
       chlorinator_status := none })
  | TankType.tank_b =>
    let config := TANK_CONFIGS TankType.tank_b
    let r := simulate_tank_b_level st.tank_a st.tank_b d.b hour dm
    let level_cm := r.2
    let volume_m3 := calculate_volume_from_level level_cm TankType.tank_b
    let level_percent := (level_cm / config.max_height_cm) * 100
    let rc := simulate_chlorine_level r.1 d.c now dm
    ({ st with tank_b := rc.1 },
     { timestamp := now
       tank_id := config.tank_id
       tank_name := config.name
       water_level_cm := py_round level_cm 2
       water_level_percent := py_round level_percent 1
       water_volume_m3 := py_round volume_m3 2
       pump_status := false
       sensor_status := "active"
       data_source := "simulation"
       chlorine_ppm := some (py_round rc.2 3)
       chlorine_status := some (get_chlorine_status rc.2)
       chlorinator_status := some rc.1.chlorinator_running })

/-- generate_all_readings (data_generator.py lines 297-305): Tank A first,
then Tank B against the already-updated Tank A state. -/
def generate_all_readings (st : SimState) (d : Draws) (now : ℚ) (hour : Nat)
    (dm : ℚ) : SimState × List Reading :=
  let ra := generate_tank_reading st TankType.tank_a d now hour dm
  let rb := generate_tank_reading ra.1 TankType.tank_b d now hour dm
  (rb.1, [ra.2, rb.2])

/-- get_latest_readings (data_generator.py lines 347-349): a full tick
with the default time_delta_minutes = 1.0. -/
def get_latest_readings (st : SimState) (d : Draws) (now : ℚ) (hour : Nat) :
    SimState × List Reading :=
  generate_all_readings st d now hour 1.0

/-- get_tank_reading (data_generator.py lines 352-355): any identifier
other than "tank_a" is mapped to TankType.TANK_B, then a reading is
generated with the default time delta. -/
def get_tank_reading (st : SimState) (tank_id : String) (d : Draws)
    (now : ℚ) (hour : Nat) : SimState × Reading :=
  let tank_type :=
    if tank_id = "tank_a" then TankType.tank_a else TankType.tank_b
  generate_tank_reading st tank_type d now hour 1.0

/-- The manual_controls dictionary of src/main.py (sans last_manual_action,
which the arbiter never reads). -/
structure ManualControls where
  pump_manual_mode : Bool
  pump_manual_state : Bool
  chlorinator_manual_mode : Bool
  chlorinator_manual_state : Bool
deriving DecidableEq, Repr

/-- apply_manual_controls (src/main.py lines 53-61): for each equipment in
manual mode, force the running flag to the commanded manual state. -/
def apply_manual_controls (mc : ManualControls) (st : SimState) : SimState :=
  let st :=
    if mc.pump_manual_mode then
      { st with tank_a := { st.tank_a with pump_running := mc.pump_manual_state } }
    else st
  if mc.chlorinator_manual_mode then
    { st with tank_b := { st.tank_b with chlorinator_running := mc.chlorinator_manual_state } }
  else st

/-- One iteration of update_readings_cache (src/main.py lines 64-78):
apply the manual controls, then run get_latest_readings. -/
def tick (mc : ManualControls) (st : SimState) (d : Draws) (now : ℚ)
    (hour : Nat) : SimState × List Reading :=
  get_latest_readings (apply_manual_controls mc st) d now hour

/-- The /api/tank/tank_id endpoint get_tank_data (src/main.py lines
186-197): identifiers outside tank_a and tank_b are rejected with HTTP
400 before any reading is produced; otherwise the cache is searched and,
on a miss, a fresh reading is generated. -/
def get_tank_data (cache : List Reading) (st : SimState) (tank_id : String)
    (d : Draws) (now : ℚ) (hour : Nat) : Except Nat Reading :=
  if tank_id = "tank_a" ∨ tank_id = "tank_b" then
    match cache.find? (fun r => r.tank_id == tank_id) with
    | some r => Except.ok r
    | none => Except.ok (get_tank_reading st tank_id d now hour).2
  else Except.error 400

/-- Iterated automatic Tank A steps over a list of per-step draws,
timestamps and time deltas. -/
def tank_a_run : TankAState → List (DrawsA × ℚ × ℚ) → TankAState
  | s, [] => s
  | s, (d, now, dm) :: rest =>
    tank_a_run (simulate_tank_a_level s d now dm).1 rest

/-- The states a run of tank_a_run visits, each one as it is BEFORE the
corresponding step. -/
def tank_a_pre_states : TankAState → List (DrawsA × ℚ × ℚ) → List TankAState
  | _, [] => []
  | s, (d, now, dm) :: rest =>
    s :: tank_a_pre_states (simulate_tank_a_level s d now dm).1 rest

/-- Modelled from the spec: the outflow formula the specification
prescribes for Tank B, normal_consumption_rate taken from the Tank B
TankConfig, times the hour-of-day multiplier and the jitter, scaled to
elapsed minutes. For comparison with the hardcoded 3.0 cm/hour
base rate. -/
def spec_tank_b_outflow (hour : Nat) (variation dm : ℚ) : ℚ :=
  (((TANK_CONFIGS TankType.tank_b).normal_consumption_rate
      * (consumption_patterns hour * variation)) / 60) * dm

/-- Modelled from the spec: the prioritized status tag the specification
says every Reading carries (low_water before high_water before
low_chlorine before high_chlorine before normal). For comparison with the
fields the source actually emits. -/
def spec_status_tag (is_tank_b : Bool) (level_percent chlorine_ppm : ℚ) : String :=
  if level_percent < 20 then "low_water"
  else if 90 < level_percent then "high_water"
  else if is_tank_b ∧ chlorine_ppm < 0.5 then "low_chlorine"
  else if is_tank_b ∧ 2.0 < chlorine_ppm then "high_chlorine"
  else "normal"

/-- Draw values inside the random.uniform ranges of the source, reused by the
concrete witness and counterexample evaluations. -/
def sample_draws : Draws :=
  { a := { fill_rate_cm_hour := 3, pump_rate_cm_hour := 7, sensor_noise := 0 },
    b := { fill_rate_cm_hour := 5, consumption_variation := 1, sensor_noise := 0 },
    c := { decay_rate_ppm_hour := 0.06, dose_rate_ppm_hour := 0.4, sensor_noise := 0 } }

/-- Helper: the persisted Tank B level after one step, in closed form:
old level plus the (pump-gated) inflow minus the consumption decrease
computed from the hardcoded 3.0 cm/hour base rate, clamped to the
physical limits. -/
theorem tank_b_level_closed_form (state_a : TankAState) (state_b : TankBState)
    (d : DrawsB) (hour : Nat) (dm : ℚ) :
    (simulate_tank_b_level state_a state_b d hour dm).1.current_level_cm
      = max (TANK_CONFIGS TankType.tank_b).min_height_cm
          (min (TANK_CONFIGS TankType.tank_b).max_height_cm
            (state_b.current_level_cm
              + tank_b_inflow state_a.pump_running d.fill_rate_cm_hour dm
              - ((3.0 * (consumption_patterns hour * d.consumption_variation)) / 60) * dm)) := rfl

/-- Helper: a running pump whose pre-step level is above the 60 percent
stop threshold is still running after the step. -/
theorem pump_stays_on_step (s : TankAState) (d : DrawsA) (now dm : ℚ)
    (hon : s.pump_running = true)
    (h : (TANK_CONFIGS TankType.tank_a).max_height_cm * 0.60 < s.current_level_cm) :
    (simulate_tank_a_level s d now dm).1.pump_running = true := by
  unfold simulate_tank_a_level
  dsimp only
  split
  · rfl
  · split
    · next hc => exact absurd hc.1 (not_le.mpr h)
    · exact hon

/-- Helper: at a level strictly between the 60 percent and 85 percent
thresholds, a step never changes the pump flag. -/
theorem pump_no_toggle_step (s : TankAState) (d : DrawsA) (now dm : ℚ)
    (h1 : (TANK_CONFIGS TankType.tank_a).max_height_cm * 0.60 < s.current_level_cm)
    (h2 : s.current_level_cm < (TANK_CONFIGS TankType.tank_a).max_height_cm * 0.85) :
    (simulate_tank_a_level s d now dm).1.pump_running = s.pump_running := by
  unfold simulate_tank_a_level
  dsimp only
  split
  · next hc => exact absurd hc.1 (not_le.mpr h2)
  · split
    · next hc => exact absurd hc.1 (not_le.mpr h1)
    · rfl

/-- Helper: over any automatic run whose visited pre-step levels all stay
above the 60 percent stop threshold, a running pump stays running. -/
theorem pump_stays_on_run (s : TankAState) (ds : List (DrawsA × ℚ × ℚ))
    (hon : s.pump_running = true)
    (hlvl : ∀ p ∈ tank_a_pre_states s ds,
        (TANK_CONFIGS TankType.tank_a).max_height_cm * 0.60 < p.current_level_cm) :
    (tank_a_run s ds).pump_running = true := by
  induction ds generalizing s with
  | nil => exact hon
  | cons hd tl ih =>
    obtain ⟨d, now, dm⟩ := hd
    refine ih _ ?_ ?_
    · exact pump_stays_on_step s d now dm hon (hlvl s (by simp [tank_a_pre_states]))
    · intro p hp
      refine hlvl p ?_
      simp only [tank_a_pre_states, List.mem_cons]
      exact Or.inr hp

/-- C1: state-bounds invariant. For every elapsed time dm > 0 and every
starting state, after one full simulation step the persisted levels of
Tank A and Tank B lie between the min_height_cm and max_height_cm of the
respective TankConfig, and the persisted chlorine of Tank B lies in
[0, 3]. (The clamps in the source make this hold unconditionally; the
positivity of dm is the input constraint the claim states.) -/
theorem step_preserves_state_bounds (st : SimState) (d : Draws) (now : ℚ)
    (hour : Nat) (dm : ℚ) (hdm : 0 < dm) :
    ((TANK_CONFIGS TankType.tank_a).min_height_cm
        ≤ ((generate_all_readings st d now hour dm).1).tank_a.current_level_cm ∧
      ((generate_all_readings st d now hour dm).1).tank_a.current_level_cm
        ≤ (TANK_CONFIGS TankType.tank_a).max_height_cm) ∧
    ((TANK_CONFIGS TankType.tank_b).min_height_cm
        ≤ ((generate_all_readings st d now hour dm).1).tank_b.current_level_cm ∧
      ((generate_all_readings st d now hour dm).1).tank_b.current_level_cm
        ≤ (TANK_CONFIGS TankType.tank_b).max_height_cm) ∧
    (0 ≤ ((generate_all_readings st d now hour dm).1).tank_b.chlorine_ppm ∧
      ((generate_all_readings st d now hour dm).1).tank_b.chlorine_ppm ≤ 3) := by
  clear hdm
  unfold generate_all_readings generate_tank_reading simulate_tank_a_level
    simulate_tank_b_level simulate_chlorine_level
  dsimp only
  refine ⟨⟨?_, ?_⟩, ⟨?_, ?_⟩, ?_, ?_⟩
  · exact le_max_left _ _
  · exact max_le (by norm_num [TANK_CONFIGS]) (min_le_left _ _)
  · exact le_max_left _ _
  · exact max_le (by norm_num [TANK_CONFIGS]) (min_le_left _ _)
  · exact le_trans (by norm_num) (le_max_left _ _)
  · exact max_le (by norm_num) (le_trans (min_le_left _ _) (by norm_num))

/-- Witness for C1 at the initial generator state with dm = 1. -/
theorem step_preserves_state_bounds_witness :
    (0 : ℚ) < 1 ∧
    (((TANK_CONFIGS TankType.tank_a).min_height_cm
        ≤ ((generate_all_readings (initial_tank_states 0) sample_draws 0 12 1).1).tank_a.current_level_cm ∧
      ((generate_all_readings (initial_tank_states 0) sample_draws 0 12 1).1).tank_a.current_level_cm
        ≤ (TANK_CONFIGS TankType.tank_a).max_height_cm) ∧
    ((TANK_CONFIGS TankType.tank_b).min_height_cm
        ≤ ((generate_all_readings (initial_tank_states 0) sample_draws 0 12 1).1).tank_b.current_level_cm ∧
      ((generate_all_readings (initial_tank_states 0) sample_draws 0 12 1).1).tank_b.current_level_cm
        ≤ (TANK_CONFIGS TankType.tank_b).max_height_cm) ∧
    (0 ≤ ((generate_all_readings (initial_tank_states 0) sample_draws 0 12 1).1).tank_b.chlorine_ppm ∧
      ((generate_all_readings (initial_tank_states 0) sample_draws 0 12 1).1).tank_b.chlorine_ppm ≤ 3)) :=
  ⟨by norm_num,
   step_preserves_state_bounds (initial_tank_states 0) sample_draws 0 12 1 (by norm_num)⟩

/-- C2: code-bug demonstration. With the pump in manual mode and manually
commanded off, and Tank A at 170 cm (above the 85 percent threshold of
153 cm), apply_manual_controls does set pump_running to false - but the
very next simulation step of the same tick turns the pump back on,
because the hysteresis in _simulate_tank_a_level never consults the
manual mode. The claim (and the message of the pump-off endpoint itself)
requires the flag to stay false until manual mode is cleared. -/
theorem manual_off_overridden_by_hysteresis :
    (apply_manual_controls ⟨true, false, false, false⟩
      { tank_a := ⟨170, true, 0, 0⟩, tank_b := ⟨200, 1.2, false, 0, 0⟩ }).tank_a.pump_running
      = false ∧
    ((tick ⟨true, false, false, false⟩
      { tank_a := ⟨170, true, 0, 0⟩, tank_b := ⟨200, 1.2, false, 0, 0⟩ }
      sample_draws 99 12).1).tank_a.pump_running = true := by
  constructor
  · rfl
  · norm_num [tick, get_latest_readings, generate_all_readings, generate_tank_reading,
      apply_manual_controls, simulate_tank_a_level, simulate_tank_b_level,
      simulate_chlorine_level, sample_draws, TANK_CONFIGS, tank_b_inflow,
      get_consumption_multiplier, consumption_patterns]

/-- C3 counterexample: the claim says an invalid tank identifier passed
to the reading operation is rejected and never silently defaults; but
get_tank_reading maps the invalid identifier "cisterna" to Tank B and
returns a Tank B reading. -/
theorem invalid_tank_id_silently_defaults :
    (get_tank_reading (initial_tank_states 0) "cisterna" sample_draws 0 12).2.tank_id
      = "tank_b" := rfl

/-- C3 amended: identifiers other than tank_a and tank_b are rejected
with HTTP 400 by the get_tank_data endpoint before any reading is
produced, but the underlying get_tank_reading operation does not reject:
it maps every identifier other than tank_a to Tank B, silently
defaulting. -/
theorem invalid_tank_id_handling (tank_id : String) (cache : List Reading)
    (st : SimState) (d : Draws) (now : ℚ) (hour : Nat)
    (h1 : tank_id ≠ "tank_a") (h2 : tank_id ≠ "tank_b") :
    get_tank_data cache st tank_id d now hour = Except.error 400 ∧
    (get_tank_reading st tank_id d now hour).2.tank_id = "tank_b" := by
  constructor
  · unfold get_tank_data
    rw [if_neg]
    rintro (h | h)
    · exact h1 h
    · exact h2 h
  · unfold get_tank_reading
    rw [if_neg h1]
    rfl

/-- Witness for C3 at the concrete identifier "bogus". -/
theorem invalid_tank_id_handling_witness :
    ("bogus" ≠ "tank_a") ∧ ("bogus" ≠ "tank_b") ∧
    get_tank_data [] (initial_tank_states 0) "bogus" sample_draws 0 12 = Except.error 400 ∧
    (get_tank_reading (initial_tank_states 0) "bogus" sample_draws 0 12).2.tank_id = "tank_b" :=
  ⟨by decide, by decide,
   (invalid_tank_id_handling "bogus" [] (initial_tank_states 0) sample_draws 0 12
      (by decide) (by decide)).1,
   (invalid_tank_id_handling "bogus" [] (initial_tank_states 0) sample_draws 0 12
      (by decide) (by decide)).2⟩

/-- C4 counterexample: at hour 7 (multiplier 1.0), jitter 1.0 and
dm = 60 minutes with the pump off, the formula the claim states (using
normal_consumption_rate from the Tank B TankConfig) gives an outflow of
8, but the code decreases the persisted level by exactly 3 (its hardcoded
3.0 cm/hour base rate): the level goes from 200 to 197, not to
200 - 8. -/
theorem tank_b_outflow_formula_mismatch :
    spec_tank_b_outflow 7 1 60 = 8 ∧
    (simulate_tank_b_level ⟨120, false, 0, 0⟩ ⟨200, 1.2, false, 0, 0⟩
      ⟨5, 1, 0⟩ 7 60).1.current_level_cm = 197 ∧
    (200 : ℚ) - spec_tank_b_outflow 7 1 60 ≠ 197 := by
  refine ⟨?_, ?_, ?_⟩ <;>
    norm_num [spec_tank_b_outflow, simulate_tank_b_level, tank_b_inflow,
      get_consumption_multiplier, consumption_patterns, TANK_CONFIGS]

/-- C4 amended: for every step with dm > 0, the Tank B consumption
decrease equals a hardcoded 3.0 cm/hour base rate - not the
normal_consumption_rate of the Tank B TankConfig, which is 8.0 -
multiplied by the hour-of-day multiplier and the uniform jitter, scaled
to elapsed minutes; the new level is that decrease applied together with
the inflow and clamped to the physical limits. -/
theorem tank_b_consumption_uses_hardcoded_rate (state_a : TankAState)
    (state_b : TankBState) (d : DrawsB) (hour : Nat) (dm : ℚ) (hdm : 0 < dm) :
    ((simulate_tank_b_level state_a state_b d hour dm).1.current_level_cm
        = max (TANK_CONFIGS TankType.tank_b).min_height_cm
            (min (TANK_CONFIGS TankType.tank_b).max_height_cm
              (state_b.current_level_cm
                + tank_b_inflow state_a.pump_running d.fill_rate_cm_hour dm
                - ((3.0 * (consumption_patterns hour * d.consumption_variation)) / 60) * dm))) ∧
    (TANK_CONFIGS TankType.tank_b).normal_consumption_rate = 8 ∧
    (3.0 : ℚ) ≠ (TANK_CONFIGS TankType.tank_b).normal_consumption_rate := by
  clear hdm
  refine ⟨tank_b_level_closed_form _ _ _ _ _, ?_, ?_⟩ <;> norm_num [TANK_CONFIGS]

/-- Witness for C4 at the concrete inputs of the counterexample. -/
theorem tank_b_consumption_uses_hardcoded_rate_witness :
    (0 : ℚ) < 60 ∧
    (simulate_tank_b_level ⟨120, false, 0, 0⟩ ⟨200, 1.2, false, 0, 0⟩
        ⟨5, 1, 0⟩ 7 60).1.current_level_cm
      = max (TANK_CONFIGS TankType.tank_b).min_height_cm
          (min (TANK_CONFIGS TankType.tank_b).max_height_cm
            ((200 : ℚ) + tank_b_inflow false 5 60
              - ((3.0 * (consumption_patterns 7 * 1)) / 60) * 60)) :=
  ⟨by norm_num,
   (tank_b_consumption_uses_hardcoded_rate ⟨120, false, 0, 0⟩ ⟨200, 1.2, false, 0, 0⟩
      ⟨5, 1, 0⟩ 7 60 (by norm_num)).1⟩

/-- C5: tank coupling. For every step with dm > 0 and a fill-rate draw in
the range of the source (at least 4 cm/hour), the inflow contribution of
Tank B - read from the current pump_running flag of the Tank A state - is
strictly positive when the pump is running and exactly 0 when it is not;
and the persisted Tank B level is the old level plus exactly that
contribution, minus consumption, clamped. -/
theorem tank_b_inflow_coupling (state_a : TankAState) (state_b : TankBState)
    (d : DrawsB) (hour : Nat) (dm : ℚ) (hdm : 0 < dm)
    (hfill : 4 ≤ d.fill_rate_cm_hour) :
    ((simulate_tank_b_level state_a state_b d hour dm).1.current_level_cm
        = max (TANK_CONFIGS TankType.tank_b).min_height_cm
            (min (TANK_CONFIGS TankType.tank_b).max_height_cm
              (state_b.current_level_cm
                + tank_b_inflow state_a.pump_running d.fill_rate_cm_hour dm
                - ((3.0 * (consumption_patterns hour * d.consumption_variation)) / 60) * dm))) ∧
    (state_a.pump_running = true →
      0 < tank_b_inflow state_a.pump_running d.fill_rate_cm_hour dm) ∧
    (state_a.pump_running = false →
      tank_b_inflow state_a.pump_running d.fill_rate_cm_hour dm = 0) := by
  refine ⟨tank_b_level_closed_form _ _ _ _ _, ?_, ?_⟩
  · intro hp
    simp only [tank_b_inflow, hp, if_true]
    have hf : (0 : ℚ) < d.fill_rate_cm_hour / 60 := by
      have : (0 : ℚ) < d.fill_rate_cm_hour := lt_of_lt_of_le (by norm_num) hfill
      positivity
    exact mul_pos hf hdm
  · intro hp
    simp [tank_b_inflow, hp]

/-- Witness for C5 with the pump running and a fill rate of 5 cm/hour. -/
theorem tank_b_inflow_coupling_witness :
    (0 : ℚ) < 1 ∧ (4 : ℚ) ≤ 5 ∧ (0 : ℚ) < tank_b_inflow true 5 1 :=
  ⟨by norm_num, by norm_num,
   (tank_b_inflow_coupling ⟨150, true, 0, 0⟩ ⟨200, 1.2, false, 0, 0⟩ ⟨5, 1, 0⟩ 12 1
      (by norm_num) (by norm_num)).2.1 rfl⟩

/-- C6: hysteresis no-chatter. Over any sequence of automatic steps, once
the pump is running it stays running as long as every visited pre-step
level stays strictly above 60 percent of max_height; and at a level
strictly between 60 and 85 percent of max_height a single step never
changes the pump flag. -/
theorem pump_hysteresis_no_chatter (s : TankAState) (ds : List (DrawsA × ℚ × ℚ))
    (hon : s.pump_running = true)
    (hlvl : ∀ p ∈ tank_a_pre_states s ds,
        (TANK_CONFIGS TankType.tank_a).max_height_cm * 0.60 < p.current_level_cm) :
    (tank_a_run s ds).pump_running = true ∧
    ∀ (s2 : TankAState) (d : DrawsA) (now dm : ℚ),
      (TANK_CONFIGS TankType.tank_a).max_height_cm * 0.60 < s2.current_level_cm →
      s2.current_level_cm < (TANK_CONFIGS TankType.tank_a).max_height_cm * 0.85 →
      (simulate_tank_a_level s2 d now dm).1.pump_running = s2.pump_running :=
  ⟨pump_stays_on_run s ds hon hlvl,
   fun s2 d now dm h1 h2 => pump_no_toggle_step s2 d now dm h1 h2⟩

/-- Draws for the two-step concrete run of the C6 witness. -/
def run_draws : List (DrawsA × ℚ × ℚ) := [(⟨3, 6, 0⟩, 0, 1), (⟨3, 6, 0⟩, 1, 1)]

/-- Witness for C6: a pump running at 140 cm stays running across a
concrete two-step run whose levels stay above the stop threshold. -/
theorem pump_hysteresis_no_chatter_witness :
    ((⟨140, true, 0, 0⟩ : TankAState).pump_running = true ∧
      (∀ p ∈ tank_a_pre_states ⟨140, true, 0, 0⟩ run_draws,
        (TANK_CONFIGS TankType.tank_a).max_height_cm * 0.60 < p.current_level_cm)) ∧
    (tank_a_run ⟨140, true, 0, 0⟩ run_draws).pump_running = true :=
  ⟨⟨rfl, by norm_num [run_draws, tank_a_pre_states, simulate_tank_a_level, TANK_CONFIGS]⟩,
   (pump_hysteresis_no_chatter ⟨140, true, 0, 0⟩ run_draws rfl
      (by norm_num [run_draws, tank_a_pre_states, simulate_tank_a_level, TANK_CONFIGS])).1⟩

/-- C7 counterexample: a Tank A reading whose water_level_percent is
exactly 15 carries no prioritized status tag at all: its only status-like
fields are sensor_status = "active" and an absent chlorine_status, while
the tag the claim prescribes would be "low_water"; and the chlorine field
the code does emit uses the value "low", not "low_chlorine". -/
theorem reading_status_tag_mismatch :
    spec_status_tag false 15 1.2 = "low_water" ∧
    (generate_tank_reading
        { tank_a := ⟨25, false, 0, 0⟩, tank_b := ⟨200, 1.2, false, 0, 0⟩ }
        TankType.tank_a ⟨⟨3, 7, 1.95⟩, ⟨5, 1, 0⟩, ⟨0.06, 0.4, 0⟩⟩
        0 12 1).2.water_level_percent = 15 ∧
    (generate_tank_reading
        { tank_a := ⟨25, false, 0, 0⟩, tank_b := ⟨200, 1.2, false, 0, 0⟩ }
        TankType.tank_a ⟨⟨3, 7, 1.95⟩, ⟨5, 1, 0⟩, ⟨0.06, 0.4, 0⟩⟩
        0 12 1).2.sensor_status = "active" ∧
    (generate_tank_reading
        { tank_a := ⟨25, false, 0, 0⟩, tank_b := ⟨200, 1.2, false, 0, 0⟩ }
        TankType.tank_a ⟨⟨3, 7, 1.95⟩, ⟨5, 1, 0⟩, ⟨0.06, 0.4, 0⟩⟩
        0 12 1).2.chlorine_status = none ∧
    get_chlorine_status 0.3 = "low" ∧ ("low" : String) ≠ "low_chlorine" := by
  refine ⟨by norm_num [spec_status_tag], ?_, rfl, rfl, by norm_num [get_chlorine_status], by decide⟩
  norm_num [generate_tank_reading, simulate_tank_a_level, py_round, round_half_even,
    TANK_CONFIGS, calculate_volume_from_level]

/-- C7 amended: readings carry no unified prioritized status tag. Tank B
readings carry a chlorine_status field computed from the (noisy) measured
chlorine with thresholds below 0.5 giving "low", above 2.0 giving "high"
and "normal" otherwise; Tank A readings carry no chlorine fields and no
level-based status, only sensor_status = "active". -/
theorem reading_status_fields (c : ℚ) (st : SimState) (d : Draws) (now : ℚ)
    (hour : Nat) (dm : ℚ) :
    (c < 0.5 → get_chlorine_status c = "low") ∧
    (2.0 < c → get_chlorine_status c = "high") ∧
    (0.5 ≤ c → c ≤ 2.0 → get_chlorine_status c = "normal") ∧
    (generate_tank_reading st TankType.tank_a d now hour dm).2.sensor_status = "active" ∧
    (generate_tank_reading st TankType.tank_a d now hour dm).2.chlorine_status = none ∧
    (generate_tank_reading st TankType.tank_b d now hour dm).2.chlorine_status
      = some (get_chlorine_status
          (simulate_chlorine_level
            (simulate_tank_b_level st.tank_a st.tank_b d.b hour dm).1 d.c now dm).2) := by
  refine ⟨?_, ?_, ?_, rfl, rfl, rfl⟩
  · intro h
    unfold get_chlorine_status
    rw [if_pos h]
  · intro h
    unfold get_chlorine_status
    rw [if_neg (not_lt.mpr (by linarith)), if_pos h]
  · intro h1 h2
    unfold get_chlorine_status
    rw [if_neg (not_lt.mpr h1), if_neg (not_lt.mpr h2)]

/-- Witness for C7 at chlorine 0.3 ppm. -/
theorem reading_status_fields_witness :
    (0.3 : ℚ) < 0.5 ∧ get_chlorine_status 0.3 = "low" :=
  ⟨by norm_num,
   (reading_status_fields 0.3 (initial_tank_states 0) sample_draws 0 12 1).1 (by norm_num)⟩

/-- C8 counterexample: a step that performs an on-to-off pump transition
(level 100 cm, at or below the 108 cm stop threshold, pump running) does
NOT update last_pump_cycle: it stays at its old value 5 instead of the
step timestamp 42, contradicting the claim that every running-flag
transition updates the timestamp. -/
theorem pump_stop_keeps_timestamp :
    (simulate_tank_a_level ⟨100, true, 5, 0⟩ sample_draws.a 42 1).1.pump_running = false ∧
    (simulate_tank_a_level ⟨100, true, 5, 0⟩ sample_draws.a 42 1).1.last_pump_cycle = 5 := by
  constructor <;> norm_num [simulate_tank_a_level, sample_draws, TANK_CONFIGS]

/-- C8 amended: last_pump_cycle (resp. last_chlorine_dose) is set to the
step timestamp exactly on the off-to-on transition performed by a step -
pump: pre-step level at or above 85 percent of max_height with the pump
off; chlorinator: post-decay chlorine below 0.8 ppm with the chlorinator
off - and is left unchanged in every other case, including on-to-off
transitions; applying the manual controls never alters either
timestamp. -/
theorem equipment_change_timestamp_framing (s : TankAState) (sb : TankBState)
    (d : DrawsA) (dc : DrawsC) (mc : ManualControls) (st : SimState) (now dm : ℚ) :
    ((simulate_tank_a_level s d now dm).1.last_pump_cycle
        = if (TANK_CONFIGS TankType.tank_a).max_height_cm * 0.85 ≤ s.current_level_cm
              ∧ s.pump_running = false then now else s.last_pump_cycle) ∧
    ((simulate_chlorine_level sb dc now dm).1.last_chlorine_dose
        = if sb.chlorine_ppm - (dc.decay_rate_ppm_hour / 60) * dm < 0.8
              ∧ sb.chlorinator_running = false then now else sb.last_chlorine_dose) ∧
    (apply_manual_controls mc st).tank_a.last_pump_cycle = st.tank_a.last_pump_cycle ∧
    (apply_manual_controls mc st).tank_b.last_chlorine_dose = st.tank_b.last_chlorine_dose := by
  refine ⟨rfl, rfl, ?_, ?_⟩ <;>
    (unfold apply_manual_controls; dsimp only; split <;> split <;> rfl)

/-- C9: noise noninterference. Two runs of a step from the same state and
the same physics draws that differ only in the sensor-noise sample
produce identical persisted states, for the Tank A level step, the Tank B
level step and the chlorine step: the noise enters only the measured
value a reading reports. -/
theorem sensor_noise_noninterference (sa : TankAState) (sb : TankBState)
    (da : DrawsA) (db : DrawsB) (dc : DrawsC) (n1 n2 m1 m2 k1 k2 now dm : ℚ)
    (hour : Nat) :
    (simulate_tank_a_level sa { da with sensor_noise := n1 } now dm).1
      = (simulate_tank_a_level sa { da with sensor_noise := n2 } now dm).1 ∧
    (simulate_tank_b_level sa sb { db with sensor_noise := m1 } hour dm).1
      = (simulate_tank_b_level sa sb { db with sensor_noise := m2 } hour dm).1 ∧
    (simulate_chlorine_level sb { dc with sensor_noise := k1 } now dm).1
      = (simulate_chlorine_level sb { dc with sensor_noise := k2 } now dm).1 :=
  ⟨rfl, rfl, rfl⟩

/-- C10: for every state and every step, the Tank B reading carries
pump_status = false: the Tank B state dictionary never has a pump_running
key, so the lookup with default False in generate_tank_reading always
yields False, regardless of the Tank A pump state or any manual
command. -/
theorem tank_b_reading_pump_status_false (st : SimState) (d : Draws) (now : ℚ)
    (hour : Nat) (dm : ℚ) :
    (generate_tank_reading st TankType.tank_b d now hour dm).2.pump_status = false := rfl
